import Mathlib

/-!
Verification of the EweGo fleet dashboard core (dashboard_app.py,
scan_network.py, discover_device.py).

The embedding models the network-facing primitives by their observable
outcomes: a probe of one address either raises a transport exception
(timeout / unreachable, `ProbeOutcome.exn`) or yields an HTTP response
with a status code and a body that either parses as structured data or
does not (`ProbeOutcome.response`).  All pure data manipulation
(dictionary updates, classification of outcomes, snapshot assembly) is
translated function-by-function from the source.
-/

/-- JSON-like structured value, the result of a successful
`response.json()` call.  Objects are association lists of fields (parsed
Python dicts, so keys are unique as produced by the JSON parser). -/
inductive Json : Type where
  | null : Json
  | bool : Bool → Json
  | num : Int → Json
  | str : String → Json
  | arr : List Json → Json
  | obj : List (String × Json) → Json

mutual

/-- Decidable equality on `Json`, written by hand because the derive
handler does not support this nested inductive. -/
def Json.decEq : (a b : Json) → Decidable (a = b)
  | .null, .null => isTrue rfl
  | .bool a, .bool b =>
    if h : a = b then isTrue (h ▸ rfl)
    else isFalse (fun hh => h (Json.bool.inj hh))
  | .num a, .num b =>
    if h : a = b then isTrue (h ▸ rfl)
    else isFalse (fun hh => h (Json.num.inj hh))
  | .str a, .str b =>
    if h : a = b then isTrue (h ▸ rfl)
    else isFalse (fun hh => h (Json.str.inj hh))
  | .arr a, .arr b =>
    match Json.decEqList a b with
    | isTrue h => isTrue (h ▸ rfl)
    | isFalse h => isFalse (fun hh => h (Json.arr.inj hh))
  | .obj a, .obj b =>
    match Json.decEqObj a b with
    | isTrue h => isTrue (h ▸ rfl)
    | isFalse h => isFalse (fun hh => h (Json.obj.inj hh))
  | .null, .bool _ => isFalse nofun
  | .null, .num _ => isFalse nofun
  | .null, .str _ => isFalse nofun
  | .null, .arr _ => isFalse nofun
  | .null, .obj _ => isFalse nofun
  | .bool _, .null => isFalse nofun
  | .bool _, .num _ => isFalse nofun
  | .bool _, .str _ => isFalse nofun
  | .bool _, .arr _ => isFalse nofun
  | .bool _, .obj _ => isFalse nofun
  | .num _, .null => isFalse nofun
  | .num _, .bool _ => isFalse nofun
  | .num _, .str _ => isFalse nofun
  | .num _, .arr _ => isFalse nofun
  | .num _, .obj _ => isFalse nofun
  | .str _, .null => isFalse nofun
  | .str _, .bool _ => isFalse nofun
  | .str _, .num _ => isFalse nofun
  | .str _, .arr _ => isFalse nofun
  | .str _, .obj _ => isFalse nofun
  | .arr _, .null => isFalse nofun
  | .arr _, .bool _ => isFalse nofun
  | .arr _, .num _ => isFalse nofun
  | .arr _, .str _ => isFalse nofun
  | .arr _, .obj _ => isFalse nofun
  | .obj _, .null => isFalse nofun
  | .obj _, .bool _ => isFalse nofun
  | .obj _, .num _ => isFalse nofun
  | .obj _, .str _ => isFalse nofun
  | .obj _, .arr _ => isFalse nofun

def Json.decEqList : (a b : List Json) → Decidable (a = b)
  | [], [] => isTrue rfl
  | [], _ :: _ => isFalse nofun
  | _ :: _, [] => isFalse nofun
  | x :: xs, y :: ys =>
    match Json.decEq x y, Json.decEqList xs ys with
    | isTrue h1, isTrue h2 => isTrue (h1 ▸ h2 ▸ rfl)
    | isFalse h1, _ => isFalse (fun hh => h1 (List.cons.inj hh).1)
    | _, isFalse h2 => isFalse (fun hh => h2 (List.cons.inj hh).2)

def Json.decEqObj : (a b : List (String × Json)) → Decidable (a = b)
  | [], [] => isTrue rfl
  | [], _ :: _ => isFalse nofun
  | _ :: _, [] => isFalse nofun
  | (k, v) :: xs, (l, w) :: ys =>
    if h1 : k = l then
      match Json.decEq v w, Json.decEqObj xs ys with
      | isTrue h2, isTrue h3 => isTrue (h1 ▸ h2 ▸ h3 ▸ rfl)
      | isFalse h2, _ =>
        isFalse (fun hh => h2 (congrArg Prod.snd (List.cons.inj hh).1))
      | _, isFalse h3 => isFalse (fun hh => h3 (List.cons.inj hh).2)
    else isFalse (fun hh => h1 (congrArg Prod.fst (List.cons.inj hh).1))

end

instance : DecidableEq Json := Json.decEq

/-- Substring test on character lists, used to model Python `k in s` for
string values. -/
def charsInfix (p l : List Char) : Bool :=
  (List.range (l.length + 1)).any (fun i => decide ((l.drop i).take p.length = p))

/-- Python membership test `k in data` on a parsed JSON value: key lookup
on a dict, element search on a list, substring test on a string, and a
TypeError (modelled as `none`) on null / bool / number. -/
def pyIn : Json → String → Option Bool
  | .obj fields, k => some (fields.any (fun p => decide (p.1 = k)))
  | .arr xs, k => some (xs.any (fun x => decide (x = Json.str k)))
  | .str s, k => some (charsInfix k.data s.data)
  | _, _ => none

/-- Python `data.get(k, default)`: defined only on dicts; calling `.get`
on any other value raises AttributeError (modelled as `none`). -/
def pyGetD : Json → String → Json → Option Json
  | .obj fields, k, d =>
    some (((fields.find? (fun p => decide (p.1 = k))).map (fun p => p.2)).getD d)
  | _, _, _ => none

/-- Observable outcome of one `requests.get` probe of an address:
either the call raises (timeout, connection refused, unreachable — the
`kind` records which, the handlers never inspect it), or it returns a
response with an HTTP status code and a body; `body = none` means the
body does not parse as JSON, so `response.json()` would raise. -/
inductive ProbeOutcome : Type where
  | exn : String → ProbeOutcome
  | response : Nat → Option Json → ProbeOutcome
deriving DecidableEq

/-- The dict built by `check_device` in scan_network.py for a recognized
device (field order follows the Python dict literal). -/
structure DeviceInfo : Type where
  ip : String
  device_id : Json
  device_name : Json
  battery : Json
  gps : Json
  recording : Json
  network_status : Json
deriving DecidableEq

/-- The body of `check_device`'s recognized-device branch: the Python
dict literal of scan_network.py lines 57–65, whose field expressions
`data.get(...)` and `data.get('battery', {}).get('level', ...)` are
evaluated left to right; an AttributeError from any `.get` on a
non-dict value propagates to the surrounding `try` (the `none`
result). -/
def extractInfo (ip : String) (data : Json) : Option DeviceInfo :=
  (pyGetD data "device_id" (Json.str "unknown")).bind (fun did =>
  (pyGetD data "device_name" (Json.str "Unknown Device")).bind (fun dname =>
  (pyGetD data "battery" (Json.obj [])).bind (fun battery0 =>
  (pyGetD battery0 "level" (Json.str "N/A")).bind (fun batteryLevel =>
  (pyGetD data "gps" (Json.obj [])).bind (fun gps0 =>
  (pyGetD gps0 "fix" (Json.str "unknown")).bind (fun gpsFix =>
  (pyGetD data "recording" (Json.bool false)).bind (fun recording =>
  (pyGetD data "network_status" (Json.str "unknown")).bind (fun netStat =>
    some ⟨ip, did, dname, batteryLevel, gpsFix, recording, netStat⟩))))))))

/-- scan_network.py `check_device`: probe `http://ip:5000/api/health`
with timeout 1; on a 200 response whose body parses, test
`'device_id' in data or 'device_name' in data` and build the device
dict.  The surrounding `try`/`except` catches every exception —
transport errors, JSON parse errors, and the TypeError/AttributeError
that `in` or `.get` raise on non-dict values — and returns `None`. -/
def check_device (ip : String) (o : ProbeOutcome) : Option DeviceInfo :=
  match o with
  | .exn _ => none
  | .response code body =>
    if code = 200 then
      body.bind (fun data =>
        (pyIn data "device_id").bind (fun hasId =>
          (if hasId then some true else pyIn data "device_name").bind
            (fun isDev => if isDev then extractInfo ip data else none)))
    else none

/-- scan_network.py `scan_network`: one `check_device` call per host in
the range, fanned out over a thread pool of `max_workers` threads.  The
network is modelled as the list of hosts paired with each probe's
outcome; the pool only schedules the pure per-address checks, so the
collected result is their `filterMap` (listed here in host order; the
real completion order may differ but carries the same elements). -/
def scan_network (net : List (String × ProbeOutcome)) (max_workers : Nat) :
    List DeviceInfo :=
  net.filterMap (fun p => check_device p.1 p.2)

/-- Value stored in `discovered_devices` for one device
(dashboard_app.py `scan_for_devices`, lines 30–34). -/
structure DirEntry : Type where
  ip : String
  url : String
  device_name : Json
deriving DecidableEq

/-- Values appearing in the per-device health dicts written by
`poll_device_health` and in the default dict used by `get_devices`. -/
inductive Val : Type where
  | vs : String → Val
  | vj : Option Json → Val
  | vt : Nat → Val
deriving DecidableEq

/-- A Python dict assignment `m[k] = v`: replaces the value in place if
the key is present, otherwise appends the new binding. -/
def dictUpsert {α : Type} (m : List (Json × α)) (k : Json) (v : α) :
    List (Json × α) :=
  if m.any (fun p => decide (p.1 = k)) then
    m.map (fun p => if p.1 = k then (k, v) else p)
  else m ++ [(k, v)]

/-- Python dict lookup `m.get(k)` on a `Json`-keyed dict. -/
def dictFind {α : Type} (m : List (Json × α)) (k : Json) : Option α :=
  (m.find? (fun p => decide (p.1 = k))).map (fun p => p.2)

/-- The two global dicts of dashboard_app.py, both guarded by
`discovery_lock`: `discovered_devices` and `device_health_data`.  Health
records are kept as key-value dicts because the source writes and reads
them by string key. -/
structure DirState : Type where
  discovered : List (Json × DirEntry)
  device_health_data : List (Json × List (String × Val))

/-- The directory entry built for one scanned device
(`scan_for_devices`): `{'ip': ..., 'url': f"http://{ip}:5000",
'device_name': ...}`. -/
def entryOf (d : DeviceInfo) : DirEntry :=
  ⟨d.ip, "http://" ++ d.ip ++ ":5000", d.device_name⟩

/-- One publish step of `scan_for_devices` (the body of the
`with discovery_lock:` block, executed atomically): clear
`discovered_devices`, then insert every scanned device keyed by its
`device_id`.  `device_health_data` is untouched. -/
def publish (s : DirState) (devices : List DeviceInfo) : DirState :=
  { s with
    discovered :=
      devices.foldl (fun m d => dictUpsert m d.device_id (entryOf d)) [] }

/-- Health dict written by `poll_device_health` for one device given the
probe outcome, with `time.time()` at the moment of the write modelled as
`now`: a 200 response with parseable body is `online` carrying the
decoded body; any other status code is `error`; a raised exception —
timeout, unreachable host, or a JSON parse failure on a 200 response —
lands in the `except` clause and is recorded `offline` with `None`
data. -/
def pollOne (o : ProbeOutcome) (now : Nat) : List (String × Val) :=
  match o with
  | .exn _ =>
    [("status", .vs "offline"), ("data", .vj none), ("last_updated", .vt now)]
  | .response code body =>
    if code = 200 then
      match body with
      | some d =>
        [("status", .vs "online"), ("data", .vj (some d)),
         ("last_updated", .vt now)]
      | none =>
        [("status", .vs "offline"), ("data", .vj none),
         ("last_updated", .vt now)]
    else
      [("status", .vs "error"), ("data", .vj none), ("last_updated", .vt now)]

/-- The `for device_id, device_info in devices_to_poll.items():` loop of
`poll_device_health`, which runs in a single thread: each iteration
issues one blocking `requests.get` (taking `(probeOf id).1` time units,
bounded by the 3s timeout) and then writes that device's health dict
under the lock.  Time advances only by the probe durations (local work
is negligible).  Returns the time when the loop finishes, the updated
`device_health_data`, and the time at which each device's health write
completed, in loop order. -/
def pollLoop (t : Nat) (snapshot : List (Json × DirEntry))
    (probeOf : Json → Nat × ProbeOutcome)
    (health : List (Json × List (String × Val))) :
    Nat × List (Json × List (String × Val)) × List Nat :=
  match snapshot with
  | [] => (t, health, [])
  | (id, _) :: rest =>
    let pr := probeOf id
    let t1 := t + pr.1
    let health1 := dictUpsert health id (pollOne pr.2 t1)
    let out := pollLoop t1 rest probeOf health1
    (out.1, out.2.1, t1 :: out.2.2)

/-- One full cycle of `poll_device_health`: snapshot the directory under
the lock (`devices_to_poll = dict(discovered_devices)`), run the
sequential probe loop, then `time.sleep(2)`.  Returns the time at which
the next cycle starts and the updated state. -/
def pollCycle (t : Nat) (s : DirState) (probeOf : Json → Nat × ProbeOutcome) :
    Nat × DirState :=
  let out := pollLoop t s.discovered probeOf s.device_health_data
  (out.1 + 2, { s with device_health_data := out.2.1 })

/-- Python subscript `health[k]` on a health dict: KeyError if the key
is absent.  Inside a Flask route an uncaught KeyError propagates out of
the handler (a 500, not a JSON snapshot). -/
def dictIndex (m : List (String × Val)) (k : String) : Except String Val :=
  match m.find? (fun p => decide (p.1 = k)) with
  | some p => .ok p.2
  | none => .error ("KeyError: " ++ k)

/-- The fallback dict of `get_devices` for devices with no recorded
health: `{'status': 'unknown', 'data': None, 'last_seen': 0}`. -/
def defaultHealth : List (String × Val) :=
  [("status", .vs "unknown"), ("data", .vj none), ("last_seen", .vt 0)]

/-- One element of the `devices_list` built by `get_devices`. -/
structure OutEntry : Type where
  device_id : Json
  device_name : Json
  ip : String
  url : String
  status : Val
  health : Val
  last_seen : Val
deriving DecidableEq

/-- The loop of `get_devices` over `discovered_devices.items()`: fetch
the device's health dict (or the default), then build the output entry,
reading `health['status']`, `health['data']` and `health['last_seen']`
by subscript. -/
def buildEntries (hd : List (Json × List (String × Val))) :
    List (Json × DirEntry) → Except String (List OutEntry)
  | [] => .ok []
  | (id, info) :: rest => do
    let health := (dictFind hd id).getD defaultHealth
    let st ← dictIndex health "status"
    let dat ← dictIndex health "data"
    let ls ← dictIndex health "last_seen"
    let tail ← buildEntries hd rest
    pure (⟨id, info.device_name, info.ip, info.url, st, dat, ls⟩ :: tail)

/-- dashboard_app.py `get_devices` (route `/api/devices`): under the
lock, build the device list and return it with its count. -/
def get_devices (s : DirState) : Except String (List OutEntry × Nat) := do
  let l ← buildEntries s.device_health_data s.discovered
  pure (l, l.length)

/-- dashboard_app.py `toggle_recording` (route
`/api/device/<device_id>/toggle_recording`): flips the module-level
global `recording_state` and reports it.  The global is never bound
anywhere in the module, modelled as `Option Bool` with `none` for
unbound (so the first read raises NameError); the handler never touches
the directory state `s` or `device_id`. -/
def toggle_recording (s : DirState) (device_id : String)
    (recording_state : Option Bool) : Except String (Bool × String) :=
  match recording_state with
  | none => .error "NameError: recording_state"
  | some b =>
    .ok (!b, if !b then "Recording started" else "Recording stopped")

/-- Device record stored by the mDNS listener of discover_device.py. -/
structure LDevice : Type where
  device_id : String
  service_name : String
  version : String
  ip : String
  port : Nat
  hostname : String
deriving DecidableEq

/-- discover_device.py `EweGoListener.remove_service`: on a "removed"
announcement, if the service name is a key of `self.devices`, delete
that entry immediately (`del self.devices[name]`). -/
def remove_service (devices : List (String × LDevice)) (name : String) :
    List (String × LDevice) :=
  if devices.any (fun p => decide (p.1 = name)) then
    devices.filter (fun p => decide (p.1 ≠ name))
  else devices

/-- The last element of `l` whose `device_id` equals `k` — the binding
that survives a left-to-right sequence of dict assignments keyed by
`device_id` ("last write wins"). -/
def lastWith (l : List DeviceInfo) (k : Json) : Option DeviceInfo :=
  l.foldl (fun acc d => if d.device_id = k then some d else acc) none

/-- `fields` either lacks the key `k` or binds it to a JSON object. -/
def fieldObjIfPresent (fields : List (String × Json)) (k : String) : Bool :=
  match fields.find? (fun p => decide (p.1 = k)) with
  | some (_, .obj _) => true
  | some _ => false
  | none => true

/-- Specification-side acceptance condition for one scanned address
(amended from §4.2/§8): the probe returned HTTP 200, the body parsed as
a JSON object, the object carries a `device_id` or `device_name` field,
and the `battery` and `gps` fields — when present — are themselves
objects.  Written from the spec wording, independently of
`check_device`, to be compared with it. -/
def scanQualifies : ProbeOutcome → Bool
  | .exn _ => false
  | .response code body =>
    if code = 200 then
      match body with
      | some (.obj fields) =>
        (fields.any (fun p => decide (p.1 = "device_id"))
          || fields.any (fun p => decide (p.1 = "device_name")))
        && fieldObjIfPresent fields "battery"
        && fieldObjIfPresent fields "gps"
      | _ => false
    else false

/-- Sample candidate: identifier `dup` answering from `10.0.0.5`. -/
def dupA : DeviceInfo :=
  ⟨"10.0.0.5", Json.str "dup", Json.str "A", Json.str "N/A",
    Json.str "unknown", Json.bool false, Json.str "unknown"⟩

/-- Sample candidate: the same identifier `dup` answering from `10.0.0.6`. -/
def dupB : DeviceInfo :=
  ⟨"10.0.0.6", Json.str "dup", Json.str "B", Json.str "N/A",
    Json.str "unknown", Json.bool false, Json.str "unknown"⟩

/-- Sample identity-less candidate (no `device_id` in its body) at
`10.0.0.21`, as built by `check_device`. -/
def unkL : DeviceInfo :=
  ⟨"10.0.0.21", Json.str "unknown", Json.str "cam-left", Json.str "N/A",
    Json.str "unknown", Json.bool false, Json.str "unknown"⟩

/-- A second identity-less candidate at `10.0.0.22`. -/
def unkR : DeviceInfo :=
  ⟨"10.0.0.22", Json.str "unknown", Json.str "cam-right", Json.str "N/A",
    Json.str "unknown", Json.bool false, Json.str "unknown"⟩

/-- Sample mDNS-announced device record. -/
def ldevA : LDevice :=
  ⟨"pi-01", "EweGo", "1.0", "10.0.0.5", 5000, "pia.local"⟩

/-- A second sample mDNS-announced device record. -/
def ldevB : LDevice :=
  ⟨"pi-02", "EweGo", "1.0", "10.0.0.6", 5000, "pib.local"⟩

section DictLemmas

variable {α : Type}

lemma dictFind_nil (k : Json) : dictFind ([] : List (Json × α)) k = none := rfl

lemma dictFind_cons (p : Json × α) (m : List (Json × α)) (k : Json) :
    dictFind (p :: m) k = if p.1 = k then some p.2 else dictFind m k := by
  by_cases h : p.1 = k <;> simp [dictFind, List.find?_cons, h]

lemma dictFind_isSome_any (m : List (Json × α)) (k : Json) :
    (dictFind m k).isSome = m.any (fun p => decide (p.1 = k)) := by
  induction m with
  | nil => rfl
  | cons p rest ih =>
    by_cases h : p.1 = k <;> simp [dictFind_cons, h, ih]

lemma dictFind_map_replace (m : List (Json × α)) (k k' : Json) (v : α) :
    dictFind (m.map (fun p => if p.1 = k then (k, v) else p)) k' =
      if k' = k then
        (if m.any (fun p => decide (p.1 = k)) then some v else none)
      else dictFind m k' := by
  induction m with
  | nil => by_cases hk : k' = k <;> simp [dictFind, hk]
  | cons p rest ih =>
    simp only [List.map_cons, List.any_cons]
    by_cases hp : p.1 = k
    · rw [if_pos hp, dictFind_cons]
      have hd : decide (p.1 = k) = true := decide_eq_true hp
      by_cases hk : k' = k
      · have hkv : ((k, v) : Json × α).1 = k' := hk.symm
        rw [if_pos hkv, if_pos hk]
        simp [hd]
      · have hkv : ¬ ((k, v) : Json × α).1 = k' := fun h => hk h.symm
        rw [if_neg hkv, ih, if_neg hk, if_neg hk, dictFind_cons]
        have hpk : ¬ p.1 = k' := fun h => hk (h.symm.trans hp)
        rw [if_neg hpk]
    · rw [if_neg hp, dictFind_cons]
      have hd : decide (p.1 = k) = false := decide_eq_false hp
      by_cases hpk : p.1 = k'
      · have hk : ¬ k' = k := fun h => hp (hpk.trans h)
        rw [if_pos hpk, if_neg hk, dictFind_cons, if_pos hpk]
      · rw [if_neg hpk, ih]
        by_cases hk : k' = k
        · rw [if_pos hk, if_pos hk]
          by_cases hr : (rest.any fun p => decide (p.1 = k)) = true
          · rw [if_pos hr, if_pos (by rw [hd, Bool.false_or]; exact hr)]
          · rw [if_neg hr, if_neg (by rw [hd, Bool.false_or]; exact hr)]
        · rw [if_neg hk, if_neg hk, dictFind_cons, if_neg hpk]

lemma dictFind_append_single (m : List (Json × α)) (k k' : Json) (v : α) :
    dictFind (m ++ [(k, v)]) k' =
      match dictFind m k' with
      | some w => some w
      | none => if k' = k then some v else none := by
  induction m with
  | nil =>
    by_cases hk : k' = k
    · simp only [List.nil_append, dictFind_nil]
      rw [dictFind_cons, if_pos hk.symm]
      simp [hk]
    · simp only [List.nil_append, dictFind_nil]
      rw [dictFind_cons, if_neg (fun h => hk h.symm)]
      simp [hk, dictFind_nil]
  | cons p rest ih =>
    by_cases hpk : p.1 = k'
    · rw [List.cons_append, dictFind_cons, if_pos hpk, dictFind_cons, if_pos hpk]
    · rw [List.cons_append, dictFind_cons, if_neg hpk, dictFind_cons, if_neg hpk, ih]

lemma dictFind_upsert (m : List (Json × α)) (k k' : Json) (v : α) :
    dictFind (dictUpsert m k v) k' = if k' = k then some v else dictFind m k' := by
  unfold dictUpsert
  by_cases hm : m.any (fun p => decide (p.1 = k)) = true
  · rw [if_pos hm, dictFind_map_replace, hm]
    by_cases hk : k' = k
    · rw [if_pos hk, if_pos hk]
      simp
    · rw [if_neg hk, if_neg hk]
  · rw [if_neg hm, dictFind_append_single]
    by_cases hk : k' = k
    · subst hk
      have hnone : dictFind m k' = none := by
        have h1 := dictFind_isSome_any m k'
        rw [Bool.eq_false_iff.mpr hm] at h1
        exact Option.not_isSome_iff_eq_none.mp (by simp [h1])
      rw [hnone]
    · cases h : dictFind m k' with
      | some w => simp [hk]
      | none => simp [hk, h]

end DictLemmas

section PublishLemmas

variable {α : Type}

lemma keys_upsert (m : List (Json × α)) (k : Json) (v : α) :
    (dictUpsert m k v).map (fun p => p.1) =
      if m.any (fun p => decide (p.1 = k)) then m.map (fun p => p.1)
      else m.map (fun p => p.1) ++ [k] := by
  unfold dictUpsert
  by_cases hm : m.any (fun p => decide (p.1 = k)) = true
  · rw [if_pos hm, if_pos hm, List.map_map]
    apply List.map_congr_left
    intro p _
    by_cases hp : p.1 = k
    · simp [hp]
    · simp [hp]
  · rw [if_neg hm, if_neg hm, List.map_append]
    rfl

lemma keys_nodup_upsert (m : List (Json × α)) (k : Json) (v : α)
    (h : (m.map (fun p => p.1)).Nodup) :
    ((dictUpsert m k v).map (fun p => p.1)).Nodup := by
  rw [keys_upsert]
  by_cases hm : m.any (fun p => decide (p.1 = k)) = true
  · rw [if_pos hm]; exact h
  · rw [if_neg hm, List.nodup_append]
    refine ⟨h, List.nodup_singleton k, ?_⟩
    intro x hx hxk
    rw [List.mem_singleton] at hxk
    subst hxk
    rcases List.mem_map.mp hx with ⟨p, hp, hpk⟩
    exact hm (List.any_eq_true.mpr ⟨p, hp, by simp [hpk]⟩)

lemma publish_fold_keys_nodup (devs : List DeviceInfo) :
    ∀ m : List (Json × DirEntry), (m.map (fun p => p.1)).Nodup →
      ((devs.foldl (fun m d => dictUpsert m d.device_id (entryOf d)) m).map
        (fun p => p.1)).Nodup := by
  induction devs with
  | nil => intro m h; exact h
  | cons d rest ih =>
    intro m h
    rw [List.foldl_cons]
    exact ih _ (keys_nodup_upsert _ _ _ h)

lemma lastWith_nil (k : Json) : lastWith [] k = none := rfl

lemma foldl_lastWith (l : List DeviceInfo) (k : Json) :
    ∀ a : Option DeviceInfo,
      l.foldl (fun acc d => if d.device_id = k then some d else acc) a =
        match lastWith l k with
        | some d => some d
        | none => a := by
  induction l with
  | nil => intro a; simp [lastWith]
  | cons d rest ih =>
    intro a
    rw [List.foldl_cons, ih]
    have hlw : lastWith (d :: rest) k =
        match lastWith rest k with
        | some x => some x
        | none => if d.device_id = k then some d else none := by
      unfold lastWith
      rw [List.foldl_cons, ih]
      rfl
    rw [hlw]
    cases h : lastWith rest k with
    | some x => rfl
    | none =>
      by_cases hdk : d.device_id = k
      · simp [hdk]
      · simp [hdk]

lemma lastWith_cons (d : DeviceInfo) (rest : List DeviceInfo) (k : Json) :
    lastWith (d :: rest) k =
      match lastWith rest k with
      | some x => some x
      | none => if d.device_id = k then some d else none := by
  unfold lastWith
  rw [List.foldl_cons, foldl_lastWith]
  rfl

lemma lastWith_mem (l : List DeviceInfo) (k : Json) :
    ∀ d, lastWith l k = some d → d ∈ l ∧ d.device_id = k := by
  induction l with
  | nil => intro d h; exact absurd h (by simp [lastWith_nil])
  | cons e rest ih =>
    intro d h
    rw [lastWith_cons] at h
    cases hr : lastWith rest k with
    | some x =>
      rw [hr] at h
      obtain ⟨h1, h2⟩ := ih x hr
      cases Option.some.inj h
      exact ⟨List.mem_cons_of_mem e h1, h2⟩
    | none =>
      rw [hr] at h
      by_cases hek : e.device_id = k
      · rw [if_pos hek] at h
        cases Option.some.inj h
        exact ⟨List.mem_cons_self _ _, hek⟩
      · rw [if_neg hek] at h
        exact absurd h (by simp)

lemma lastWith_isSome_of_mem (l : List DeviceInfo) (d : DeviceInfo)
    (hd : d ∈ l) : (lastWith l d.device_id).isSome := by
  induction l with
  | nil => cases hd
  | cons e rest ih =>
    rw [lastWith_cons]
    cases hr : lastWith rest d.device_id with
    | some x => rfl
    | none =>
      rcases List.mem_cons.mp hd with rfl | hmem
      · rw [if_pos rfl]; rfl
      · have := ih hmem
        rw [hr] at this
        cases this

lemma lastWith_isSome_iff (l : List DeviceInfo) (k : Json) :
    (lastWith l k).isSome ↔ ∃ d ∈ l, d.device_id = k := by
  constructor
  · intro h
    rcases Option.isSome_iff_exists.mp h with ⟨d, hd⟩
    obtain ⟨h1, h2⟩ := lastWith_mem l k d hd
    exact ⟨d, h1, h2⟩
  · rintro ⟨d, hd, rfl⟩
    exact lastWith_isSome_of_mem l d hd

lemma dictFind_publish_fold (devs : List DeviceInfo) (k : Json) :
    ∀ m : List (Json × DirEntry),
      dictFind (devs.foldl (fun m d => dictUpsert m d.device_id (entryOf d)) m) k =
        match lastWith devs k with
        | some d => some (entryOf d)
        | none => dictFind m k := by
  induction devs with
  | nil => intro m; simp [lastWith]
  | cons d rest ih =>
    intro m
    rw [List.foldl_cons, ih, lastWith_cons]
    cases hr : lastWith rest k with
    | some x => rfl
    | none =>
      rw [dictFind_upsert]
      by_cases hdk : d.device_id = k
      · rw [if_pos hdk.symm, if_pos hdk]
      · rw [if_neg (fun h => hdk h.symm), if_neg hdk]

end PublishLemmas

section PollLemmas

lemma pollLoop_end (snap : List (Json × DirEntry)) :
    ∀ (t : Nat) (probeOf : Json → Nat × ProbeOutcome)
      (health : List (Json × List (String × Val))),
      (pollLoop t snap probeOf health).1 =
        t + (snap.map (fun p => (probeOf p.1).1)).sum := by
  induction snap with
  | nil => intro t probeOf health; simp [pollLoop]
  | cons p rest ih =>
    intro t probeOf health
    simp only [pollLoop, List.map_cons, List.sum_cons]
    rw [ih]
    omega

lemma pollLoop_times (snap : List (Json × DirEntry)) :
    ∀ (t : Nat) (probeOf : Json → Nat × ProbeOutcome)
      (health : List (Json × List (String × Val))),
      (pollLoop t snap probeOf health).2.2 =
        (List.range snap.length).map
          (fun i => t + ((snap.take (i+1)).map (fun p => (probeOf p.1).1)).sum) := by
  induction snap with
  | nil => intro t probeOf health; simp [pollLoop]
  | cons p rest ih =>
    intro t probeOf health
    simp only [pollLoop]
    rw [ih, List.length_cons, List.range_succ_eq_map, List.map_cons, List.map_map]
    refine congrArg₂ List.cons ?_ ?_
    · simp
    · apply List.map_congr_left
      intro i _
      simp only [Function.comp_apply, Nat.succ_eq_add_one, List.take_succ_cons,
        List.map_cons, List.sum_cons]
      omega

end PollLemmas

section ScanLemmas

lemma mem_keys_iff_find_isSome {α : Type} (m : List (Json × α)) (k : Json) :
    k ∈ m.map (fun p => p.1) ↔ (dictFind m k).isSome := by
  rw [dictFind_isSome_any, List.any_eq_true]
  simp only [List.mem_map, decide_eq_true_eq]

lemma extractInfo_isSome_obj (ip : String) (fields : List (String × Json)) :
    (extractInfo ip (Json.obj fields)).isSome =
      (fieldObjIfPresent fields "battery" && fieldObjIfPresent fields "gps") := by
  cases hbat : fields.find? (fun p => decide (p.1 = "battery")) with
  | none =>
    cases hgps : fields.find? (fun p => decide (p.1 = "gps")) with
    | none => simp [extractInfo, pyGetD, fieldObjIfPresent, hbat, hgps]
    | some qg =>
      obtain ⟨gk, gv⟩ := qg
      cases gv <;> simp [extractInfo, pyGetD, fieldObjIfPresent, hbat, hgps]
  | some qb =>
    obtain ⟨bk, bv⟩ := qb
    cases bv <;>
      (cases hgps : fields.find? (fun p => decide (p.1 = "gps")) with
       | none => simp [extractInfo, pyGetD, fieldObjIfPresent, hbat, hgps]
       | some qg =>
         obtain ⟨gk, gv⟩ := qg
         cases gv <;> simp [extractInfo, pyGetD, fieldObjIfPresent, hbat, hgps])

lemma check_device_isSome (ip : String) (o : ProbeOutcome) :
    (check_device ip o).isSome = scanQualifies o := by
  cases o with
  | exn k => rfl
  | response c b =>
    by_cases hc : c = 200
    · subst hc
      cases b with
      | none => rfl
      | some data =>
        cases data with
        | null => rfl
        | bool v => rfl
        | num v => rfl
        | str v =>
          cases h1 : charsInfix "device_id".data v.data with
          | true => simp [check_device, scanQualifies, extractInfo, pyIn, pyGetD, h1]
          | false =>
            cases h2 : charsInfix "device_name".data v.data with
            | true => simp [check_device, scanQualifies, extractInfo, pyIn, pyGetD, h1, h2]
            | false => simp [check_device, scanQualifies, pyIn, h1, h2]
        | arr xs =>
          cases h1 : xs.any (fun x => decide (x = Json.str "device_id")) with
          | true => simp [check_device, scanQualifies, extractInfo, pyIn, pyGetD, h1]
          | false =>
            cases h2 : xs.any (fun x => decide (x = Json.str "device_name")) with
            | true => simp [check_device, scanQualifies, extractInfo, pyIn, pyGetD, h1, h2]
            | false => simp [check_device, scanQualifies, pyIn, h1, h2]
        | obj fields =>
          cases hid : fields.any (fun p => decide (p.1 = "device_id")) with
          | false =>
            cases hname : fields.any (fun p => decide (p.1 = "device_name")) with
            | false => simp [check_device, scanQualifies, pyIn, hid, hname]
            | true =>
              simp [check_device, scanQualifies, pyIn, hid, hname,
                extractInfo_isSome_obj]
          | true =>
            simp [check_device, scanQualifies, pyIn, hid, extractInfo_isSome_obj]
    · have h1 : check_device ip (ProbeOutcome.response c b) = none := by
        simp [check_device, hc]
      have h2 : scanQualifies (ProbeOutcome.response c b) = false := by
        simp [scanQualifies, hc]
      rw [h1, h2]
      rfl

lemma extractInfo_ip (ip : String) (data : Json) (d : DeviceInfo)
    (h : extractInfo ip data = some d) : d.ip = ip := by
  simp only [extractInfo, Option.bind_eq_some] at h
  obtain ⟨did, h1, dname, h2, b0, h3, bl, h4, g0, h5, gf, h6, rc, h7, ns, h8, h9⟩ := h
  cases h9
  rfl

lemma check_device_ip (ip : String) (o : ProbeOutcome) (d : DeviceInfo)
    (h : check_device ip o = some d) : d.ip = ip := by
  cases o with
  | exn k => cases h
  | response c b =>
    by_cases hc : c = 200
    · subst hc
      cases b with
      | none => cases h
      | some data =>
        simp only [check_device, if_pos, Option.some_bind, Option.bind_eq_some] at h
        obtain ⟨hasId, hh, isDev, hi, hd⟩ := h
        by_cases hdev : isDev = true
        · rw [hdev, if_pos rfl] at hd
          exact extractInfo_ip ip data d hd
        · rw [if_neg hdev] at hd
          cases hd
    · have : check_device ip (ProbeOutcome.response c b) = none := by
        simp [check_device, hc]
      rw [this] at h
      cases h

lemma scan_network_ips (net : List (String × ProbeOutcome)) (w : Nat) :
    (scan_network net w).map (fun d => d.ip) =
      (net.filter (fun p => scanQualifies p.2)).map (fun p => p.1) := by
  induction net with
  | nil => rfl
  | cons p rest ih =>
    simp only [scan_network] at ih ⊢
    rw [List.filterMap_cons, List.filter_cons]
    cases hc : check_device p.1 p.2 with
    | none =>
      have hq : scanQualifies p.2 = false := by
        rw [← check_device_isSome p.1 p.2, hc]
        rfl
      simp [hq, ih]
    | some d =>
      have hq : scanQualifies p.2 = true := by
        rw [← check_device_isSome p.1 p.2, hc]
        rfl
      have hip := check_device_ip p.1 p.2 d hc
      simp [hq, hip, ih]

end ScanLemmas

/-- C1 (code bug): the query endpoint `get_devices` does NOT always
return a snapshot.  The poller stores health dicts keyed
`last_updated`, but `get_devices` reads `health['last_seen']` — a key
present only in the fallback dict for never-polled devices.  Hence for
a directory in which device `pi-01` has one recorded health
observation, the query raises `KeyError: 'last_seen'` (first conjunct);
only a device with no recorded observation is served, with the default
`unknown` status (second conjunct). -/
theorem C1_query_raises_keyerror :
    get_devices
      { discovered :=
          [(Json.str "pi-01",
            ⟨"10.0.0.5", "http://10.0.0.5:5000", Json.str "pi-01"⟩)],
        device_health_data :=
          [(Json.str "pi-01",
            pollOne (.response 200 (some (Json.obj
              [("device_id", Json.str "pi-01"),
               ("battery", Json.num 72)]))) 100)] }
      = .error "KeyError: last_seen"
    ∧ get_devices
      { discovered :=
          [(Json.str "pi-01",
            ⟨"10.0.0.5", "http://10.0.0.5:5000", Json.str "pi-01"⟩)],
        device_health_data := [] }
      = .ok ([⟨Json.str "pi-01", Json.str "pi-01", "10.0.0.5",
          "http://10.0.0.5:5000", .vs "unknown", .vj none, .vt 0⟩], 1) :=
  ⟨rfl, rfl⟩

/-- C2 counterexample: a device present in the directory before a
publish step of a scan that found zero devices is NOT present
afterwards — `scan_for_devices` clears `discovered_devices` and
repopulates it only with the scan's candidates. -/
theorem C2_counterexample :
    Json.str "pi-01" ∈
      ([(Json.str "pi-01",
          (⟨"10.0.0.5", "http://10.0.0.5:5000", Json.str "pi-01"⟩ : DirEntry))].map
        (fun p => p.1))
    ∧ (publish
        { discovered :=
            [(Json.str "pi-01",
              ⟨"10.0.0.5", "http://10.0.0.5:5000", Json.str "pi-01"⟩)],
          device_health_data := [] } []).discovered = [] :=
  ⟨List.mem_singleton.mpr rfl, rfl⟩

/-- C2 (corrected): a discovery publish step replaces the discovered
set wholesale: afterwards the directory holds exactly the scanned
candidates' `device_id`s — a previously present device absent from the
scan (in particular after a scan that found zero devices) is deleted
rather than kept with an `offline` status; the health dict
`device_health_data` is untouched by the publish. -/
theorem C2_amended_replace_wholesale (s : DirState) (devs : List DeviceInfo) :
    (publish s devs).device_health_data = s.device_health_data
    ∧ ∀ k : Json,
        (k ∈ (publish s devs).discovered.map (fun p => p.1) ↔
          ∃ d ∈ devs, d.device_id = k) := by
  refine ⟨rfl, fun k => ?_⟩
  rw [mem_keys_iff_find_isSome]
  have hp : (publish s devs).discovered =
      devs.foldl (fun m d => dictUpsert m d.device_id (entryOf d)) [] := rfl
  rw [hp, dictFind_publish_fold, ← lastWith_isSome_iff]
  cases h : lastWith devs k <;> simp [h, dictFind]

/-- C3 counterexample: probes in one poll cycle are not concurrent.
With two devices `A` and `B`, when `A`'s probe takes 3 seconds (its
timeout) and `B`'s is instantaneous, `B`'s health write completes at
time 3; when `A`'s probe is also instantaneous, `B`'s write completes
at time 0.  A slow probe for `A` therefore delays the health write for
the unrelated device `B`. -/
theorem C3_counterexample :
    (pollLoop 0
        [(Json.str "A", ⟨"10.0.0.5", "http://10.0.0.5:5000", Json.str "A"⟩),
         (Json.str "B", ⟨"10.0.0.6", "http://10.0.0.6:5000", Json.str "B"⟩)]
        (fun j => if j = Json.str "A" then (3, .exn "timeout")
                  else (0, .response 200 (some (Json.obj []))))
        []).2.2 = [3, 3]
    ∧ (pollLoop 0
        [(Json.str "A", ⟨"10.0.0.5", "http://10.0.0.5:5000", Json.str "A"⟩),
         (Json.str "B", ⟨"10.0.0.6", "http://10.0.0.6:5000", Json.str "B"⟩)]
        (fun j => if j = Json.str "A" then (0, .response 200 (some (Json.obj [])))
                  else (0, .response 200 (some (Json.obj []))))
        []).2.2 = [0, 0] :=
  ⟨rfl, rfl⟩

/-- C3 (corrected): `poll_device_health` probes the snapshot
sequentially in a single thread: the health write for the device at
position `i` completes only at the cycle start time plus the sum of the
durations of all probes up to and including position `i`, so a slow
probe for one device delays the writes for every later device in the
cycle; and the next cycle starts only after every probe of the current
cycle has finished plus the 2-second sleep. -/
theorem C3_amended_sequential_poll (t : Nat) (snap : List (Json × DirEntry))
    (probeOf : Json → Nat × ProbeOutcome)
    (health : List (Json × List (String × Val))) :
    (pollLoop t snap probeOf health).2.2 =
      (List.range snap.length).map
        (fun i => t + ((snap.take (i+1)).map (fun p => (probeOf p.1).1)).sum)
    ∧ (pollCycle t ⟨snap, health⟩ probeOf).1 =
        t + (snap.map (fun p => (probeOf p.1).1)).sum + 2 := by
  refine ⟨pollLoop_times snap t probeOf health, ?_⟩
  show (pollLoop t snap probeOf health).1 + 2 = _
  rw [pollLoop_end]

/-- C4: classification of a single poll in `poll_device_health`: a 200
response whose body parses yields status `online` with the decoded body
as payload and the write time as `last_updated`; a response with any
other status code yields `error` with `None` payload; a raised
exception (timeout or unreachable host) yields `offline` with `None`
payload; and a timed-out probe is never recorded `online`. -/
theorem C4_poll_classification (o : ProbeOutcome) (now : Nat) :
    (∀ d : Json, o = .response 200 (some d) →
      dictIndex (pollOne o now) "status" = .ok (.vs "online")
      ∧ dictIndex (pollOne o now) "data" = .ok (.vj (some d))
      ∧ dictIndex (pollOne o now) "last_updated" = .ok (.vt now))
    ∧ (∀ (c : Nat) (b : Option Json), o = .response c b → c ≠ 200 →
      dictIndex (pollOne o now) "status" = .ok (.vs "error")
      ∧ dictIndex (pollOne o now) "data" = .ok (.vj none))
    ∧ (∀ k : String, o = .exn k →
      dictIndex (pollOne o now) "status" = .ok (.vs "offline")
      ∧ dictIndex (pollOne o now) "data" = .ok (.vj none))
    ∧ (∀ k : String,
      dictIndex (pollOne (.exn k) now) "status" ≠ .ok (.vs "online")) := by
  refine ⟨?_, ?_, ?_, ?_⟩
  · rintro d rfl
    exact ⟨rfl, rfl, rfl⟩
  · rintro c b rfl hc
    simp only [pollOne]
    rw [if_neg hc]
    exact ⟨rfl, rfl⟩
  · rintro k rfl
    exact ⟨rfl, rfl⟩
  · intro k h
    exact absurd (Val.vs.inj (Except.ok.inj h)) (by decide)

/-- C4 witness: the three classifications evaluated at concrete probes. -/
theorem C4_poll_classification_witness :
    dictIndex (pollOne
      (.response 200 (some (Json.obj [("battery", Json.num 72)]))) 5)
      "status" = .ok (.vs "online")
    ∧ dictIndex (pollOne (.response 404 none) 5) "status" = .ok (.vs "error")
    ∧ dictIndex (pollOne (.exn "timeout") 5) "status" = .ok (.vs "offline") :=
  ⟨((C4_poll_classification
      (.response 200 (some (Json.obj [("battery", Json.num 72)]))) 5).1
      (Json.obj [("battery", Json.num 72)]) rfl).1,
   ((C4_poll_classification (.response 404 none) 5).2.1 404 none rfl
      (by decide)).1,
   ((C4_poll_classification (.exn "timeout") 5).2.2.1 "timeout" rfl).1⟩

/-- C5: the directory maps each `device_id` to at most one entry, and
any sequence of two publish steps preserves this: after publishing the
candidate lists of two discovery cycles, the key list is duplicate-free
and the entry for a `device_id` reported in the latest cycle is exactly
the one built from the last candidate of that cycle carrying that id
("last write wins"). -/
theorem C5_device_id_unique (s : DirState) (l1 l2 : List DeviceInfo)
    (d : DeviceInfo) (hd : d ∈ l2) :
    ((publish (publish s l1) l2).discovered.map (fun p => p.1)).Nodup
    ∧ ∃ dl, lastWith l2 d.device_id = some dl
        ∧ dl.device_id = d.device_id
        ∧ dictFind (publish (publish s l1) l2).discovered d.device_id =
            some (entryOf dl) := by
  have hp : (publish (publish s l1) l2).discovered =
      l2.foldl (fun m d => dictUpsert m d.device_id (entryOf d)) [] := rfl
  constructor
  · rw [hp]
    exact publish_fold_keys_nodup l2 [] (by simp)
  · have hs := lastWith_isSome_of_mem l2 d hd
    rcases Option.isSome_iff_exists.mp hs with ⟨dl, hdl⟩
    obtain ⟨hmem, hid⟩ := lastWith_mem l2 d.device_id dl hdl
    refine ⟨dl, hdl, hid, ?_⟩
    rw [hp, dictFind_publish_fold, hdl]

/-- C5 witness: two cycles both reporting identifier `dup`, the second
from address `10.0.0.6`; the directory ends with a duplicate-free key
list and the single `dup` entry carries the second cycle's address. -/
theorem C5_device_id_unique_witness :
    ((publish (publish ⟨[], []⟩ [dupA]) [dupB]).discovered.map
      (fun p => p.1)).Nodup
    ∧ ∃ dl, lastWith [dupB] dupB.device_id = some dl
        ∧ dl.device_id = dupB.device_id
        ∧ dictFind (publish (publish ⟨[], []⟩ [dupA]) [dupB]).discovered
            dupB.device_id = some (entryOf dl) :=
  C5_device_id_unique ⟨[], []⟩ [dupA] [dupB] dupB (List.mem_singleton.mpr rfl)

/-- C6 counterexample: `scan_network` performs no deduplication by
`device_id`: two addresses answering with the same identifier `dup` in
one scan both appear in the returned list, which is therefore not
duplicate-free. -/
theorem C6_counterexample :
    (scan_network
      [("10.0.0.5", .response 200 (some (Json.obj [("device_id", Json.str "dup")]))),
       ("10.0.0.6", .response 200 (some (Json.obj [("device_id", Json.str "dup")])))]
      50).map (fun d => d.device_id) = [Json.str "dup", Json.str "dup"]
    ∧ ¬ ((scan_network
      [("10.0.0.5", .response 200 (some (Json.obj [("device_id", Json.str "dup")]))),
       ("10.0.0.6", .response 200 (some (Json.obj [("device_id", Json.str "dup")])))]
      50).map (fun d => d.device_id)).Nodup :=
  ⟨rfl, by decide⟩

/-- C6 (corrected): the list returned by `scan_network` contains one
candidate per responding address with no deduplication by `device_id`:
for every identifier `k`, the number of returned candidates carrying
`k` equals the number of scanned addresses whose check produced a
candidate carrying `k` (so duplicate responders each contribute an
entry; uniqueness by `device_id` arises only later, at the directory
merge of `scan_for_devices`). -/
theorem C6_amended_scan_no_dedup (net : List (String × ProbeOutcome))
    (w : Nat) (k : Json) :
    ((scan_network net w).filter (fun d => decide (d.device_id = k))).length =
      (net.filter (fun p =>
        match check_device p.1 p.2 with
        | some d => decide (d.device_id = k)
        | none => false)).length := by
  induction net with
  | nil => rfl
  | cons p rest ih =>
    simp only [scan_network] at ih ⊢
    rw [List.filterMap_cons, List.filter_cons]
    cases hc : check_device p.1 p.2 with
    | none =>
      simp only [hc]
      exact ih
    | some d =>
      simp only [hc]
      rw [List.filter_cons]
      by_cases hd : d.device_id = k
      · simp [hd, ih]
      · simp [hd, ih]

/-- C7 (code bug): the `toggle_recording` handler never resolves
`device_id` to a `base_url` — it does not read the Fleet Directory at
all.  On its first invocation it raises `NameError` because the global
`recording_state` is never initialized (first conjunct), and its result
is entirely independent of both the directory contents and the
requested `device_id` (second conjunct). -/
theorem C7_toggle_ignores_directory :
    toggle_recording
      { discovered := [(Json.str "pi-01",
          ⟨"10.0.0.5", "http://10.0.0.5:5000", Json.str "pi-01"⟩)],
        device_health_data := [] } "pi-01" none
      = .error "NameError: recording_state"
    ∧ ∀ (s1 s2 : DirState) (i1 i2 : String) (st : Option Bool),
        toggle_recording s1 i1 st = toggle_recording s2 i2 st :=
  ⟨rfl, fun s1 s2 i1 i2 st => by cases st <;> rfl⟩

/-- C8 counterexample: a reachable responder whose 200 body carries the
identity field `device_id` is nevertheless omitted from the scan when
its `battery` field is a bare number — `data.get('battery', {})
.get('level', ...)` raises AttributeError on the int, the `except`
swallows it, and `check_device` returns `None`. -/
theorem C8_counterexample :
    pyIn (Json.obj [("device_id", Json.str "pi-02"), ("battery", Json.num 72)])
      "device_id" = some true
    ∧ check_device "10.0.0.7"
        (.response 200 (some (Json.obj
          [("device_id", Json.str "pi-02"), ("battery", Json.num 72)]))) = none :=
  ⟨rfl, rfl⟩

/-- C8 (corrected): the scanner returns candidates for exactly those
addresses that answered with a 200 response whose body parses as a JSON
object carrying a `device_id` or `device_name` field AND whose
`battery` and `gps` fields, when present, are themselves objects
(otherwise the field extraction raises and the address is dropped);
the result is independent of the worker-pool size. -/
theorem C8_amended_scan_exact (net : List (String × ProbeOutcome))
    (w w' : Nat) :
    scan_network net w = scan_network net w'
    ∧ (∀ (ip : String) (o : ProbeOutcome),
        (check_device ip o).isSome = scanQualifies o)
    ∧ (scan_network net w).map (fun d => d.ip) =
        (net.filter (fun p => scanQualifies p.2)).map (fun p => p.1) :=
  ⟨rfl, check_device_isSome, scan_network_ips net w⟩

/-- C9 counterexample: a "removed" announcement for a known service
name deletes the entry from the listener's device store immediately —
the store is empty right after `remove_service`, with no waiting for
any health-poll classification. -/
theorem C9_counterexample :
    ("pi._ewego._tcp.local.", ldevA) ∈ [("pi._ewego._tcp.local.", ldevA)]
    ∧ remove_service [("pi._ewego._tcp.local.", ldevA)]
        "pi._ewego._tcp.local." = [] :=
  ⟨List.mem_singleton.mpr rfl, rfl⟩

/-- C9 (corrected): on a "removed" event for a known service name,
`remove_service` immediately deletes that entry from the listener's
store — afterwards no entry with that name remains — while every entry
with a different name is kept. -/
theorem C9_amended_immediate_delete (devices : List (String × LDevice))
    (name : String) :
    (∀ p ∈ remove_service devices name, p.1 ≠ name)
    ∧ (∀ p ∈ devices, p.1 ≠ name → p ∈ remove_service devices name) := by
  unfold remove_service
  by_cases h : devices.any (fun p => decide (p.1 = name)) = true
  · rw [if_pos h]
    constructor
    · intro p hp
      have h2 := List.of_mem_filter hp
      simpa using h2
    · intro p hp hne
      exact List.mem_filter.mpr ⟨hp, by simpa using hne⟩
  · rw [if_neg h]
    refine ⟨fun p hp hpn => ?_, fun p hp _ => hp⟩
    exact h (List.any_eq_true.mpr ⟨p, hp, by simp [hpn]⟩)

/-- C9 witness: removing service `a` from a store holding services `a`
and `b` leaves no entry named `a` and keeps the entry for `b`. -/
theorem C9_amended_immediate_delete_witness :
    (∀ p ∈ remove_service
        [("a._ewego._tcp.local.", ldevA), ("b._ewego._tcp.local.", ldevB)]
        "a._ewego._tcp.local.", p.1 ≠ "a._ewego._tcp.local.")
    ∧ ("b._ewego._tcp.local.", ldevB) ∈ remove_service
        [("a._ewego._tcp.local.", ldevA), ("b._ewego._tcp.local.", ldevB)]
        "a._ewego._tcp.local." :=
  ⟨(C9_amended_immediate_delete
      [("a._ewego._tcp.local.", ldevA), ("b._ewego._tcp.local.", ldevB)]
      "a._ewego._tcp.local.").1,
   (C9_amended_immediate_delete
      [("a._ewego._tcp.local.", ldevA), ("b._ewego._tcp.local.", ldevB)]
      "a._ewego._tcp.local.").2 ("b._ewego._tcp.local.", ldevB)
      (by simp) (by decide)⟩

lemma check_device_no_id (ip : String) (fields : List (String × Json))
    (d : DeviceInfo)
    (hno : ∀ p ∈ fields, p.1 ≠ "device_id")
    (h : check_device ip (.response 200 (some (Json.obj fields))) = some d) :
    d.device_id = Json.str "unknown" := by
  have hfind : fields.find? (fun p => decide (p.1 = "device_id")) = none := by
    rw [List.find?_eq_none]
    intro p hp
    simpa using hno p hp
  simp only [check_device, if_pos, Option.some_bind, Option.bind_eq_some] at h
  obtain ⟨hasId, hh, isDev, hi, hd2⟩ := h
  by_cases hdev : isDev = true
  · rw [hdev, if_pos rfl] at hd2
    simp only [extractInfo, Option.bind_eq_some] at hd2
    obtain ⟨did, h1, dname, h2, b0, h3, bl, h4, g0, h5, gf, h6, rc, h7, ns,
      h8, h9⟩ := hd2
    simp only [pyGetD, hfind, Option.map_none', Option.getD_none,
      Option.some.injEq] at h1
    cases h1
    cases Option.some.inj h9
    rfl
  · rw [if_neg hdev] at hd2
    cases hd2

/-- C10 counterexample: a success body that lacks `device_id` and
contains `device_name` is NOT always recorded under `"unknown"`: when
its `battery` field is a bare number, the field extraction raises and
`check_device` drops the responder entirely — nothing is recorded for
it at all. -/
theorem C10_counterexample :
    pyIn (Json.obj [("device_name", Json.str "x"), ("battery", Json.num 72)])
      "device_id" = some false
    ∧ pyIn (Json.obj [("device_name", Json.str "x"), ("battery", Json.num 72)])
      "device_name" = some true
    ∧ check_device "10.0.0.9"
        (.response 200 (some (Json.obj
          [("device_name", Json.str "x"), ("battery", Json.num 72)]))) = none :=
  ⟨rfl, rfl, rfl⟩

/-- C10 (corrected): whenever the scanner produces a candidate at all
for a success body whose object lacks a `device_id` field, that
candidate carries the literal identifier `"unknown"`
(`data.get('device_id', 'unknown')`) — bodies whose extraction fails
are dropped, recording nothing (see the counterexample).  Consequently,
for any publish of any candidate list (a mixed fleet included), the
directory keys stay duplicate-free, so there is at most one entry keyed
`"unknown"`, and as soon as some merged candidate carries id
`"unknown"`, that entry exists and is built from the last such
candidate — its address overwriting the earlier ones'. -/
theorem C10_amended_unknown_id :
    (∀ (ip : String) (fields : List (String × Json)) (d : DeviceInfo),
      (∀ p ∈ fields, p.1 ≠ "device_id") →
      check_device ip (.response 200 (some (Json.obj fields))) = some d →
      d.device_id = Json.str "unknown")
    ∧ ∀ (s : DirState) (l : List DeviceInfo) (d : DeviceInfo),
        d ∈ l → d.device_id = Json.str "unknown" →
        ((publish s l).discovered.map (fun p => p.1)).Nodup
        ∧ ∃ dl, lastWith l (Json.str "unknown") = some dl
            ∧ dl.device_id = Json.str "unknown"
            ∧ dictFind (publish s l).discovered (Json.str "unknown") =
                some (entryOf dl) := by
  constructor
  · exact check_device_no_id
  · intro s l d hd hdu
    have hp : (publish s l).discovered =
        l.foldl (fun m d => dictUpsert m d.device_id (entryOf d)) [] := rfl
    constructor
    · rw [hp]
      exact publish_fold_keys_nodup l [] (by simp)
    · have hs := lastWith_isSome_of_mem l d hd
      rw [hdu] at hs
      rcases Option.isSome_iff_exists.mp hs with ⟨dl, hdl⟩
      obtain ⟨hm, hi⟩ := lastWith_mem l (Json.str "unknown") dl hdl
      refine ⟨dl, hdl, hi, ?_⟩
      rw [hp, dictFind_publish_fold, hdl]

/-- C10 witness: the scanner's candidate for the identity-less body
`{"device_name": "cam-left"}` carries id `"unknown"`; and publishing
the mixed fleet `[unkL, dupA, unkR]` (two identity-less candidates
around a properly identified one) leaves duplicate-free keys with the
single `"unknown"` entry built from `unkR`, the last-merged one. -/
theorem C10_amended_unknown_id_witness :
    unkL.device_id = Json.str "unknown"
    ∧ (((publish ⟨[], []⟩ [unkL, dupA, unkR]).discovered.map
        (fun p => p.1)).Nodup
      ∧ ∃ dl, lastWith [unkL, dupA, unkR] (Json.str "unknown") = some dl
          ∧ dl.device_id = Json.str "unknown"
          ∧ dictFind (publish ⟨[], []⟩ [unkL, dupA, unkR]).discovered
              (Json.str "unknown") = some (entryOf dl)) :=
  ⟨C10_amended_unknown_id.1 "10.0.0.21"
      [("device_name", Json.str "cam-left")] unkL (by decide) rfl,
   C10_amended_unknown_id.2 ⟨[], []⟩ [unkL, dupA, unkR] unkR
      (by decide) rfl⟩
